import Mathlib

/-!
Verification of the K-1 extraction engine (repository lisun85/k1).

Shallow embedding conventions:
* Python floats are modelled as exact rationals; every concrete value the
  claims exercise is exactly representable and the arithmetic involved
  (sums, differences, comparisons against a $1 tolerance) is exact at these
  magnitudes.
* Python strings are modelled as lists of characters (String.data); the
  string operations used by the source (replace, strip, startswith,
  endswith, slicing, lower, containment) are re-implemented on lists.
* Python dicts (the field maps flowing through the cascade) are modelled as
  association lists built by an insert that updates in place, mirroring
  insertion-ordered dict semantics.
* The external adapters (pdfplumber text and tables, OCR) and the regex
  catalog application are inputs to the orchestrator model: a PdfOracle
  record supplies the map each strategy returns, which is exactly the
  universe over which the merge-policy and gating claims quantify.
-/

namespace K1

section

-- Batteries marks the arithmetic on Rat irreducible; restore reducibility so
-- that concrete runs of the embedded code can be evaluated by kernel reduction.
attribute [local semireducible] Rat.add Rat.mul Rat.inv Rat.sub Rat.ofScientific

/-! ## Python string primitives on lists of characters -/

/-- Whitespace characters removed by Python str.strip(). -/
def pyIsSpace (c : Char) : Bool :=
  c = ' ' ∨ c = '\t' ∨ c = '\n' ∨ c = '\r' ∨ c = '\x0b' ∨ c = '\x0c'

/-- Python str.strip(): remove leading and trailing whitespace. -/
def pyStrip (l : List Char) : List Char :=
  ((l.dropWhile pyIsSpace).reverse.dropWhile pyIsSpace).reverse

/-- Value of a digit run, most significant first. -/
def digitsToNat (l : List Char) : Nat :=
  l.foldl (fun a c => 10 * a + (c.toNat - 48)) 0

/-- Exponent tail of a float literal: empty, or e/E with optional sign and
digits.  Returns the mantissa scaled accordingly. -/
def parseExpPart (m : ℚ) : List Char → Option ℚ
  | [] => some m
  | e :: t =>
    if e = 'e' ∨ e = 'E' then
      let (neg, t2) : Bool × List Char :=
        match t with
        | '+' :: u => (false, u)
        | '-' :: u => (true, u)
        | _ => (false, t)
      let ds := t2.takeWhile Char.isDigit
      let rest := t2.dropWhile Char.isDigit
      if ds.isEmpty ∨ ¬ rest.isEmpty then none
      else some (if neg then m / 10 ^ digitsToNat ds else m * 10 ^ digitsToNat ds)
    else none

/-- Unsigned body of a Python float literal: digits with an optional single
decimal point (at least one digit overall) and an optional exponent. -/
def parseAfterSign (l : List Char) : Option ℚ :=
  let ip := l.takeWhile Char.isDigit
  let rest := l.dropWhile Char.isDigit
  match rest with
  | [] => if ip.isEmpty then none else some (digitsToNat ip)
  | '.' :: t =>
    let fp := t.takeWhile Char.isDigit
    let rest2 := t.dropWhile Char.isDigit
    if ip.isEmpty ∧ fp.isEmpty then none
    else parseExpPart ((digitsToNat ip : ℚ) + (digitsToNat fp : ℚ) / 10 ^ fp.length) rest2
  | _ => if ip.isEmpty then none else parseExpPart (digitsToNat ip) rest

/-- Model of Python float(str) on the literal fragment the extractor can
produce: surrounding whitespace, an optional sign, decimal digits with an
optional fractional part and an optional exponent.  The special forms
inf/nan and underscore separators never occur in the regex captures fed to
the normalizer and are not modelled (they fail here). -/
def pyFloat (l : List Char) : Option ℚ :=
  match pyStrip l with
  | '+' :: r => parseAfterSign r
  | '-' :: r => (parseAfterSign r).map Neg.neg
  | t => parseAfterSign t

/-! ## NumericNormalizer: K1Patterns.clean_currency / clean_percentage
(src/patterns.py lines 267-314) -/

/-- value.replace(chr(36), <empty>).replace(chr(44), <empty>).strip():
drop every dollar sign and comma, then strip whitespace. -/
def stripCurrency (l : List Char) : List Char :=
  pyStrip (l.filter (fun c => ¬ (c = '$' ∨ c = ',')))

/-- The negative-handling chain of clean_currency: keep a leading minus;
else turn wrapping parentheses into a leading minus; else drop a trailing
minus (without negating, as the source and its docstring do). -/
def applyNegationRules (l : List Char) : List Char :=
  if l.head? = some '-' then l
  else if l.head? = some '(' ∧ l.getLast? = some ')' then
    '-' :: (l.drop 1).dropLast
  else if l.getLast? = some '-' then l.dropLast
  else l

/-- K1Patterns.clean_currency: empty input yields 0.0; otherwise strip
currency formatting, apply the negation rules, and parse; a failed parse
yields 0.0. -/
def clean_currency (value : String) : ℚ :=
  if value.data.isEmpty then 0
  else
    match pyFloat (applyNegationRules (stripCurrency value.data)) with
    | some q => q
    | none => 0

/-- K1Patterns.clean_percentage: strip percent signs and whitespace, parse;
a failed parse yields 0.0. -/
def clean_percentage (value : String) : ℚ :=
  if value.data.isEmpty then 0
  else
    match pyFloat (pyStrip (value.data.filter (fun c => ¬ c = '%'))) with
    | some q => q
    | none => 0


/-! ## Enumerations (src/models.py lines 9-29) -/

/-- FormType enum. -/
inductive FormType where
  | form_1065
  | form_1120S
  | form_1041
  | unknown
deriving DecidableEq, Repr

/-- ExtractionMethod enum. -/
inductive ExtractionMethod where
  | pdf_text
  | ocr
  | table
  | layout
  | ml
  | manual
deriving DecidableEq, Repr

/-- The warning messages K1Extractor._validate_k1_data can append
(src/extractor.py lines 582-619), one constructor per message template,
carrying the data interpolated into the message. -/
inductive K1Warning where
  | einFormat (ein : String)
  | taxYearUnusual (year : Int)
  | taxYearInvalid (tax_year : String)
  | percentOutOfRange (f : String) (value : ℚ)
  | capitalNotReconcile
  | endingCapitalNegative
deriving DecidableEq, Repr

/-! ## K1Data (src/models.py lines 33-362)

Fields never written by the extraction pipeline and never read by any claim
(entity_address, partner_ssn, partner_address, the dict-valued boxes 13-20,
the errors list, the pydantic json config) are omitted; they keep their
defaults through every run.  The datetime extraction_timestamp is modelled
as a rational clock reading supplied to the run.  Warnings are modelled as
an inductive type with one constructor per message template of
K1Extractor._validate_k1_data, carrying the interpolated data. -/

structure K1Data where
  form_type : FormType := .unknown
  tax_year : Option String := none
  extraction_timestamp : ℚ := 0
  extraction_method : ExtractionMethod := .pdf_text
  confidence_score : ℚ := 0
  ein : Option String := none
  entity_name : Option String := none
  partner_name : Option String := none
  box_1_ordinary_income : Option ℚ := none
  box_2_rental_real_estate : Option ℚ := none
  box_3_other_rental : Option ℚ := none
  box_4_guaranteed_payments : Option ℚ := none
  box_5_interest_income : Option ℚ := none
  box_6a_ordinary_dividends : Option ℚ := none
  box_6b_qualified_dividends : Option ℚ := none
  box_7_royalties : Option ℚ := none
  box_8_net_short_term_gain : Option ℚ := none
  box_9a_net_long_term_gain : Option ℚ := none
  box_9b_collectibles_gain : Option ℚ := none
  box_9c_unrecaptured_1250 : Option ℚ := none
  box_10_net_1231_gain : Option ℚ := none
  box_11_other_income : Option ℚ := none
  box_12_section_179 : Option ℚ := none
  capital_beginning : Option ℚ := none
  capital_contributions : Option ℚ := none
  capital_distributions : Option ℚ := none
  capital_ending : Option ℚ := none
  profit_sharing_percent : Option ℚ := none
  loss_sharing_percent : Option ℚ := none
  capital_percent : Option ℚ := none
  raw_text : Option String := none
  warnings : List K1Warning := []
deriving DecidableEq

/-- K1Data.get_total_income (src/models.py lines 255-278): the income boxes
collected by the source, in source order; None entries are filtered out and
the rest summed. -/
def get_total_income (d : K1Data) : ℚ :=
  (([d.box_1_ordinary_income,
     d.box_2_rental_real_estate,
     d.box_3_other_rental,
     d.box_4_guaranteed_payments,
     d.box_5_interest_income,
     d.box_6a_ordinary_dividends,
     d.box_7_royalties,
     d.box_8_net_short_term_gain,
     d.box_9a_net_long_term_gain,
     d.box_11_other_income] : List (Option ℚ)).filterMap id).sum

/-- K1Data.get_completeness_score (src/models.py lines 280-301): fraction of
the six important fields that are populated. -/
def get_completeness_score (d : K1Data) : ℚ :=
  (([d.ein.isSome, d.tax_year.isSome, d.entity_name.isSome,
     d.partner_name.isSome, d.box_1_ordinary_income.isSome,
     d.capital_ending.isSome].count true : ℚ)) / 6

/-- K1Data.validate_capital_account (src/models.py lines 303-326): when
beginning, ending and distributions are all present, check
beginning + (contributions or 0) + total income - distributions against
ending within a $1 tolerance; otherwise report True (cannot validate). -/
def validate_capital_account (d : K1Data) : Bool :=
  if d.capital_beginning.isSome ∧ d.capital_ending.isSome ∧
      d.capital_distributions.isSome then
    let contributions := d.capital_contributions.getD 0
    let distributions := d.capital_distributions.getD 0
    let income := get_total_income d
    let expected := d.capital_beginning.getD 0 + contributions + income - distributions
    let actual := d.capital_ending.getD 0
    |expected - actual| ≤ 1
  else
    true

/-! ## Validator: K1Extractor._validate_k1_data (src/extractor.py lines 582-619) -/

/-- The regex r checking two digits, a dash, seven digits, anchored at both
ends (re.match with a trailing dollar anchor on a ten-character shape). -/
def einFormatOk (s : String) : Bool :=
  match s.data with
  | [a, b, c, d, e, f, g, h, i, j] =>
    a.isDigit ∧ b.isDigit ∧ c = '-' ∧ d.isDigit ∧ e.isDigit ∧ f.isDigit ∧
      g.isDigit ∧ h.isDigit ∧ i.isDigit ∧ j.isDigit
  | _ => false

/-- Model of Python int(str): surrounding whitespace, an optional sign,
then decimal digits (underscore separators never occur here). -/
def pyInt (s : String) : Option Int :=
  let body : List Char → Option Int := fun l =>
    if ¬ l.isEmpty ∧ l.all Char.isDigit then some (digitsToNat l) else none
  match pyStrip s.data with
  | '+' :: r => body r
  | '-' :: r => (body r).map Neg.neg
  | t => body t

/-- EIN shape check: fires when the EIN is present and truthy (non-empty)
but fails the shape regex. -/
def einWarnings (d : K1Data) : List K1Warning :=
  match d.ein with
  | some e => if ¬ e.data.isEmpty ∧ ¬ einFormatOk e then [.einFormat e] else []
  | none => []

/-- Tax-year plausibility: parse as int; out of [2000, 2030] is unusual, a
failed parse is invalid. -/
def taxYearWarnings (d : K1Data) : List K1Warning :=
  match d.tax_year with
  | some ty =>
    if ¬ ty.data.isEmpty then
      match pyInt ty with
      | some y => if y < 2000 ∨ y > 2030 then [.taxYearUnusual y] else []
      | none => [.taxYearInvalid ty]
    else []
  | none => []

/-- One percentage bound check. -/
def percentWarning (name : String) (v : Option ℚ) : List K1Warning :=
  match v with
  | some x => if x < 0 ∨ x > 100 then [.percentOutOfRange name x] else []
  | none => []

/-- The three ownership-percentage checks, in source order. -/
def percentWarnings (d : K1Data) : List K1Warning :=
  percentWarning "profit_sharing_percent" d.profit_sharing_percent ++
    percentWarning "loss_sharing_percent" d.loss_sharing_percent ++
    percentWarning "capital_percent" d.capital_percent

/-- Capital-account reconciliation warning. -/
def capitalWarnings (d : K1Data) : List K1Warning :=
  if validate_capital_account d then [] else [.capitalNotReconcile]

/-- Negative ending-capital warning. -/
def negativeEndingWarnings (d : K1Data) : List K1Warning :=
  match d.capital_ending with
  | some ce => if ce < 0 then [.endingCapitalNegative] else []
  | none => []

/-- K1Extractor._validate_k1_data: the warnings list, in the order the
source appends them. -/
def validateK1Data (d : K1Data) : List K1Warning :=
  einWarnings d ++ taxYearWarnings d ++ percentWarnings d ++
    capitalWarnings d ++ negativeEndingWarnings d

/-! ## FormTypeClassifier (src/extractor.py lines 403-426 and 258-273) -/

/-- Does needle occur as a contiguous run inside hay (Python in operator on
strings)? -/
def startsWithL : List Char → List Char → Bool
  | _, [] => true
  | [], _ :: _ => false
  | h :: hs, n :: ns => h = n ∧ startsWithL hs ns

/-- Substring containment on character lists. -/
def containsL : List Char → List Char → Bool
  | [], needle => needle.isEmpty
  | h :: hs, needle => startsWithL (h :: hs) needle || containsL hs needle

/-- Python str.lower() (the texts involved are ASCII). -/
def lowerL (l : List Char) : List Char := l.map Char.toLower

/-- Python s1 in s2 after lowering s2, for a needle already lowercase. -/
def inLower (needle : String) (hay : String) : Bool :=
  containsL (lowerL hay.data) needle.data

/-- K1Extractor._detect_form_type: literal form titles first, then content
keywords, otherwise unknown. -/
def detect_form_type (text : String) : FormType :=
  if inLower "form 1065" text ∨ inLower "schedule k-1 (form 1065)" text then
    .form_1065
  else if inLower "form 1120s" text ∨ inLower "schedule k-1 (form 1120s)" text then
    .form_1120S
  else if inLower "form 1041" text ∨ inLower "schedule k-1 (form 1041)" text then
    .form_1041
  else if inLower "partnership" text then .form_1065
  else if inLower "s corporation" text ∨ inLower "s-corporation" text then
    .form_1120S
  else if inLower "estate" text ∨ inLower "trust" text then .form_1041
  else .unknown


/-! ## Field maps

The extracted_fields dict flowing through K1Extractor.extract_from_pdf:
string keys to raw values (strings for entity fields, floats for box,
capital and percentage values), modelled as an insertion-ordered
association list with in-place update, like a Python dict. -/

/-- A raw extracted value: entity fields carry strings, numeric fields carry
floats produced by the normalizer. -/
inductive FieldValue where
  | str (s : String)
  | num (q : ℚ)
deriving DecidableEq, Repr

/-- Python truthiness of a raw value: empty strings and 0.0 are falsy. -/
def FieldValue.truthy : FieldValue → Bool
  | .str s => ¬ s.data.isEmpty
  | .num q => ¬ q = 0

/-- The extracted_fields dict. -/
abbrev FieldMap := List (String × FieldValue)

/-- Python: key in d. -/
def fmContains (m : FieldMap) (k : String) : Bool :=
  (List.any m fun p => p.1 = k)

/-- Python: d[key] (as an optional lookup of the first binding). -/
def fmLookup : FieldMap → String → Option FieldValue
  | [], _ => none
  | (k', v) :: rest, k => if k' = k then some v else fmLookup rest k

/-- Replace every binding of key k by (k, v), keeping the rest: the
pointwise map underlying an in-place dict update. -/
def fmReplace (k : String) (v : FieldValue) : FieldMap → FieldMap
  | [] => []
  | (k₀, v₀) :: rest =>
    if k₀ = k then (k, v) :: fmReplace k v rest
    else (k₀, v₀) :: fmReplace k v rest

/-- Python: d[key] = value — update the binding in place if the key exists,
otherwise append it. -/
def fmInsert (m : FieldMap) (k : String) (v : FieldValue) : FieldMap :=
  if fmContains m k then fmReplace k v m else m ++ [(k, v)]

/-- Python: len(d). -/
def fmLen (m : FieldMap) : Nat := List.length m

/-- Python: d.update(other), folding the bindings of other in order. -/
def fmUpdate (m : FieldMap) (other : FieldMap) : FieldMap :=
  List.foldl (fun acc p => fmInsert acc p.1 p.2) m other

/-! ## ExtractionOrchestrator: K1Extractor.extract_from_pdf
(src/extractor.py lines 79-256)

The external adapters and the regex catalog application are inputs: a
PdfOracle bundles, for one PDF, the map returned by _extract_k1_simple, the
text and page count from _extract_pdf_text, the map from
_extract_pdf_with_tables, the OCR text from _extract_with_ocr, and the maps
K1Patterns.extract_all_fields returns on the two texts.  All are fixed
functions of the PDF, so fixing the oracle is fixing the input. -/

structure PdfOracle where
  /-- Result of _extract_k1_simple(pdf_path). -/
  simple_fields : FieldMap
  /-- first component of _extract_pdf_text(pdf_path) -/
  pdf_text : String
  /-- second component of _extract_pdf_text(pdf_path) -/
  page_count : Nat
  /-- K1Patterns.extract_all_fields(pdf_text) -/
  pattern_fields : FieldMap
  /-- Result of _extract_pdf_with_tables(pdf_path). -/
  table_fields : FieldMap
  /-- Result of _extract_with_ocr(pdf_path). -/
  ocr_text : String
  /-- K1Patterns.extract_all_fields(ocr_text) -/
  ocr_fields : FieldMap
  /-- os.path.basename(pdf_path) -/
  file_name : String
  /-- os.path.getsize(pdf_path) scaled to megabytes -/
  file_size_mb : ℚ
deriving DecidableEq

/-- The entity-field allow-list of stage 2 (src/extractor.py line 145). -/
def entityFields : List String := ["ein", "entity_name", "tax_year", "partner_name"]

/-- The stage-2 merge loop (src/extractor.py lines 139-147): add missing
fields; for the entity allow-list overwrite when the new value is truthy. -/
def mergePattern (acc : FieldMap) : List (String × FieldValue) → FieldMap
  | [] => acc
  | (k, v) :: rest =>
    let acc' :=
      if ¬ fmContains acc k then fmInsert acc k v
      else if List.contains entityFields k ∧ v.truthy then fmInsert acc k v
      else acc
    mergePattern acc' rest

/-- The stage-3/stage-4 merge loops (src/extractor.py lines 159-162 and
180-183): add only fields not already present. -/
def mergeBackfill (acc : FieldMap) : List (String × FieldValue) → FieldMap
  | [] => acc
  | (k, v) :: rest =>
    mergeBackfill (if fmContains acc k then acc else fmInsert acc k v) rest

/-- Fields after stage 1 (lines 110-116): start from an empty dict and, when
the simple extraction found anything, update with its map. -/
def stage1Fields (o : PdfOracle) : FieldMap :=
  if (List.isEmpty o.simple_fields) then [] else fmUpdate [] o.simple_fields

/-- Fields after stage 2 (lines 127-147): when the PDF text is truthy and
pattern extraction found anything, run the stage-2 merge. -/
def stage2Fields (o : PdfOracle) : FieldMap :=
  if ¬ o.pdf_text.data.isEmpty ∧ ¬ (List.isEmpty o.pattern_fields) then
    mergePattern (stage1Fields o) o.pattern_fields
  else stage1Fields o

/-- The stage-3 coverage gate (line 154): table extraction is invoked iff
fewer than 15 fields are accumulated after stage 2. -/
def tableInvoked (o : PdfOracle) : Bool :=
  fmLen (stage2Fields o) < 15

/-- Fields after stage 3 (lines 152-167). -/
def stage3Fields (o : PdfOracle) : FieldMap :=
  if tableInvoked o ∧ ¬ (List.isEmpty o.table_fields) then
    mergeBackfill (stage2Fields o) o.table_fields
  else stage2Fields o

/-- The stage-4 adequacy gate (line 171): OCR is invoked iff fewer than 5
fields are accumulated after stage 3. -/
def ocrInvoked (o : PdfOracle) : Bool :=
  fmLen (stage3Fields o) < 5

/-- Fields after stage 4 (lines 169-187): when OCR is invoked, its text is
truthy and re-running pattern extraction on it found anything, backfill. -/
def stage4Fields (o : PdfOracle) : FieldMap :=
  if ocrInvoked o ∧ ¬ o.ocr_text.data.isEmpty ∧ ¬ (List.isEmpty o.ocr_fields) then
    mergeBackfill (stage3Fields o) o.ocr_fields
  else stage3Fields o

/-- The extraction_method after the table stage (lines 166-167): TABLE when
the table stage ran and contributed more than 5 new fields. -/
def methodAfterTable (o : PdfOracle) : ExtractionMethod :=
  if tableInvoked o ∧ ¬ (List.isEmpty o.table_fields) ∧
      fmLen (stage3Fields o) - fmLen (stage2Fields o) > 5 then
    .table
  else .pdf_text

/-- The final extraction_method (lines 185-187): OCR when the OCR stage ran
and contributed more than half of the final field count. -/
def finalMethod (o : PdfOracle) : ExtractionMethod :=
  if ocrInvoked o ∧ ¬ o.ocr_text.data.isEmpty ∧ ¬ (List.isEmpty o.ocr_fields) ∧
      2 * (fmLen (stage4Fields o) - fmLen (stage3Fields o)) > fmLen (stage4Fields o) then
    .ocr
  else methodAfterTable o

/-- K1Extractor._detect_form_type_from_fields (src/extractor.py lines
258-273): keyword inference on the extracted entity name, defaulting to
1065.  A numeric entity-name value stringifies to digits, a dot, an
optional sign and an optional exponent, which contain none of the keywords,
so it falls through to the default. -/
def detect_form_type_from_fields (fields : FieldMap) : FormType :=
  match fmLookup fields "entity_name" with
  | some (.str name) =>
    if inLower "partnership" name ∨ inLower "lp" name then .form_1065
    else if inLower "corporation" name ∨ inLower "corp" name then .form_1120S
    else if inLower "trust" name ∨ inLower "estate" name then .form_1041
    else .form_1065
  | some (.num _) => .form_1065
  | none => .form_1065

/-- Project a raw value to a string attribute slot. -/
def FieldValue.asStr : FieldValue → Option String
  | .str s => some s
  | .num _ => none

/-- Project a raw value to a float attribute slot. -/
def FieldValue.asNum : FieldValue → Option ℚ
  | .num q => some q
  | .str _ => none

/-- Typed lookup of an entity (string) field. -/
def strField (m : FieldMap) (k : String) : Option String :=
  (fmLookup m k).bind FieldValue.asStr

/-- Typed lookup of a numeric field. -/
def numField (m : FieldMap) (k : String) : Option ℚ :=
  (fmLookup m k).bind FieldValue.asNum

/-- K1Extractor._create_k1_data (src/extractor.py lines 432-484): build a
fresh K1Data and set each attribute named in field_mapping from the
extracted map when present.  Box 9b, box 9c and the dict-valued boxes are
not in field_mapping and keep their defaults.  In the source the attribute
receives the raw dict value; every path stores strings under the entity
keys and floats under the numeric keys, which the typed lookups reflect.
The datetime.now() default of extraction_timestamp is the clock input. -/
def createK1Data (fields : FieldMap) (ft : FormType) (em : ExtractionMethod)
    (rawText : String) (now : ℚ) : K1Data :=
  { form_type := ft
    extraction_method := em
    extraction_timestamp := now
    raw_text := if rawText.data.isEmpty then none else some ⟨rawText.data.take 5000⟩
    ein := strField fields "ein"
    tax_year := strField fields "tax_year"
    entity_name := strField fields "entity_name"
    partner_name := strField fields "partner_name"
    box_1_ordinary_income := numField fields "box_1_ordinary_income"
    box_2_rental_real_estate := numField fields "box_2_rental_real_estate"
    box_3_other_rental := numField fields "box_3_other_rental"
    box_4_guaranteed_payments := numField fields "box_4_guaranteed_payments"
    box_5_interest_income := numField fields "box_5_interest_income"
    box_6a_ordinary_dividends := numField fields "box_6a_ordinary_dividends"
    box_6b_qualified_dividends := numField fields "box_6b_qualified_dividends"
    box_7_royalties := numField fields "box_7_royalties"
    box_8_net_short_term_gain := numField fields "box_8_net_short_term_gain"
    box_9a_net_long_term_gain := numField fields "box_9a_net_long_term_gain"
    box_10_net_1231_gain := numField fields "box_10_net_1231_gain"
    box_11_other_income := numField fields "box_11_other_income"
    box_12_section_179 := numField fields "box_12_section_179"
    capital_beginning := numField fields "capital_beginning"
    capital_ending := numField fields "capital_ending"
    capital_contributions := numField fields "capital_contributions"
    capital_distributions := numField fields "capital_distributions"
    profit_sharing_percent := numField fields "profit_sharing_percent"
    loss_sharing_percent := numField fields "loss_sharing_percent"
    capital_percent := numField fields "capital_percent" }

/-! ## ConfidenceScorer: K1Extractor._calculate_confidence
(src/extractor.py lines 490-535) -/

/-- The fixed method-reliability table (lines 518-525).  Every enum value
has an entry, so the 0.5 dict-lookup default is unreachable. -/
def methodScore : ExtractionMethod → ℚ
  | .pdf_text => 1.0
  | .table => 0.9
  | .layout => 0.8
  | .ocr => 0.7
  | .ml => 0.8
  | .manual => 1.0

/-- How many of the three critical fields (ein, tax_year, entity_name) are
present (lines 509-513). -/
def criticalPresent (d : K1Data) : Nat :=
  ([d.ein.isSome, d.tax_year.isSome, d.entity_name.isSome].count true)

/-- The weighted confidence score, capped at 1.0. -/
def calculate_confidence (d : K1Data) : ℚ :=
  let s1 := get_completeness_score d * 0.4
  let s2 := ((criticalPresent d : ℚ) / 3) * 0.3
  let s3 := methodScore d.extraction_method * 0.2
  let s4 : ℚ := if validate_capital_account d then 0.1 else 0.05
  min (s1 + s2 + s3 + s4) 1.0

/-! ## The assembled run (src/extractor.py lines 189-240) -/

/-- ExtractionResult (src/models.py lines 368-393) on the success path of a
PDF that exists; error_message stays None there. -/
structure ExtractionResultM where
  success : Bool
  data : Option K1Data
  processing_time : ℚ
  extraction_method : ExtractionMethod
  page_count : Nat
  file_name : String
  file_size_mb : ℚ
  error_message : Option String
deriving DecidableEq

/-- One full run of K1Extractor.extract_from_pdf on an existing PDF, the
adapter results fixed by the oracle; now is the datetime.now() reading at
K1Data creation and elapsed the measured processing time. -/
def extract_from_pdf (o : PdfOracle) (now elapsed : ℚ) : ExtractionResultM :=
  let fields := stage4Fields o
  let ft :=
    if ¬ o.pdf_text.data.isEmpty then detect_form_type o.pdf_text
    else detect_form_type_from_fields fields
  let em := finalMethod o
  let d0 := createK1Data fields ft em ⟨o.pdf_text.data.take 5000⟩ now
  let d1 := { d0 with confidence_score := calculate_confidence d0 }
  let d2 := { d1 with warnings := d1.warnings ++ validateK1Data d1 }
  { success := true
    data := some d2
    processing_time := elapsed
    extraction_method := em
    page_count := o.page_count
    file_name := o.file_name
    file_size_mb := o.file_size_mb
    error_message := none }

/-- Erase the two clock-derived slots of a result (the processing time and
the extraction timestamp inside the record). -/
def stripClock (r : ExtractionResultM) : ExtractionResultM :=
  { r with
    processing_time := 0
    data := r.data.map fun d => { d with extraction_timestamp := 0 } }

/-! ## Concrete inputs used to instantiate the claims -/

/-- A PDF whose text yields only an EIN by pattern extraction while OCR
reads a different EIN; the pattern maps shown are the genuine outputs of
K1Patterns.extract_all_fields on these one-line texts. -/
def oracleEinClash : PdfOracle :=
  { simple_fields := []
    pdf_text := "EIN: 12-3456789"
    page_count := 1
    pattern_fields := [("ein", FieldValue.str "12-3456789")]
    table_fields := []
    ocr_text := "EIN: 98-7654321"
    ocr_fields := [("ein", FieldValue.str "98-7654321")]
    file_name := "k1.pdf"
    file_size_mb := 0 }

/-- A run in which the simple stage alone already yields 16 fields. -/
def oracleRich : PdfOracle :=
  { simple_fields :=
      [("ein", FieldValue.str "12-3456789"),
       ("entity_name", FieldValue.str "ABC Partnership LLC"),
       ("tax_year", FieldValue.str "2023"),
       ("partner_name", FieldValue.str "John Doe"),
       ("box_1_ordinary_income", FieldValue.num 50000),
       ("box_2_rental_real_estate", FieldValue.num 10000),
       ("box_3_other_rental", FieldValue.num 1000),
       ("box_4_guaranteed_payments", FieldValue.num 2000),
       ("box_5_interest_income", FieldValue.num 2500),
       ("box_6a_ordinary_dividends", FieldValue.num 300),
       ("box_7_royalties", FieldValue.num 400),
       ("box_8_net_short_term_gain", FieldValue.num 500),
       ("box_9a_net_long_term_gain", FieldValue.num 600),
       ("capital_beginning", FieldValue.num 100000),
       ("capital_ending", FieldValue.num 175000),
       ("capital_distributions", FieldValue.num 0)]
    pdf_text := ""
    page_count := 1
    pattern_fields := []
    table_fields := [("box_11_other_income", FieldValue.num 700)]
    ocr_text := ""
    ocr_fields := []
    file_name := "rich.pdf"
    file_size_mb := 1 }

/-- A run in which every strategy comes back empty. -/
def oracleEmpty : PdfOracle :=
  { simple_fields := []
    pdf_text := ""
    page_count := 1
    pattern_fields := []
    table_fields := []
    ocr_text := ""
    ocr_fields := []
    file_name := "blank.pdf"
    file_size_mb := 0 }

/-- The first capital-account scenario of the reconciliation claim:
beginning 500000, contributions 0, box-1 income 100000, distributions
50000, ending 559000 (off by 9000). -/
def k1CapitalMismatch : K1Data :=
  { capital_beginning := some 500000
    capital_contributions := some 0
    box_1_ordinary_income := some 100000
    capital_distributions := some 50000
    capital_ending := some 559000 }

/-- The second capital-account scenario: beginning 100000, contributions
25000, box-1 income 50000, distributions 0, ending 175000 (exact). -/
def k1CapitalExact : K1Data :=
  { capital_beginning := some 100000
    capital_contributions := some 25000
    box_1_ordinary_income := some 50000
    capital_distributions := some 0
    capital_ending := some 175000 }

/-! ## Lemmas about the field-map dictionary -/

theorem fmLookup_eq_none_of_not_contains :
    ∀ {m : FieldMap} {k : String}, fmContains m k = false → fmLookup m k = none := by
  intro m k h
  induction m with
  | nil => rfl
  | cons p rest ih =>
    obtain ⟨k', v⟩ := p
    simp only [fmContains, List.any_cons, Bool.or_eq_false_iff] at h
    obtain ⟨h1, h2⟩ := h
    simp only [decide_eq_false_iff_not] at h1
    simp only [fmLookup, if_neg h1]
    exact ih h2

theorem fmLookup_isSome_of_contains :
    ∀ {m : FieldMap} {k : String}, fmContains m k = true → (fmLookup m k).isSome := by
  intro m k h
  induction m with
  | nil => simp [fmContains] at h
  | cons p rest ih =>
    obtain ⟨k', v⟩ := p
    simp only [fmContains, List.any_cons, Bool.or_eq_true] at h
    by_cases hk : k' = k
    · simp [fmLookup, hk]
    · simp only [decide_eq_true_eq] at h
      rcases h with h | h
      · exact absurd h hk
      · simp only [fmLookup, if_neg hk]
        exact ih h

theorem fmLookup_append_of_none {m₁ : FieldMap} (m₂ : FieldMap) {k : String}
    (h : fmLookup m₁ k = none) : fmLookup (m₁ ++ m₂) k = fmLookup m₂ k := by
  induction m₁ with
  | nil => rfl
  | cons p rest ih =>
    obtain ⟨k', v⟩ := p
    by_cases hk : k' = k
    · simp [fmLookup, hk] at h
    · simp only [fmLookup, if_neg hk] at h
      simpa [fmLookup, if_neg hk] using ih h

theorem fmLookup_fmReplace_self {m : FieldMap} {k : String} (v : FieldValue)
    (hc : fmContains m k = true) : fmLookup (fmReplace k v m) k = some v := by
  induction m with
  | nil => simp [fmContains] at hc
  | cons p rest ih =>
    obtain ⟨k', v'⟩ := p
    by_cases hk : k' = k
    · subst hk
      simp [fmReplace, fmLookup]
    · simp only [fmReplace, if_neg hk, fmLookup]
      simp only [fmContains, List.any_cons, Bool.or_eq_true, decide_eq_true_eq] at hc
      rcases hc with hc | hc
      · exact absurd hc hk
      · exact ih hc

theorem fmLookup_fmReplace_ne {k k' : String} (v : FieldValue) (m : FieldMap)
    (h : k' ≠ k) : fmLookup (fmReplace k' v m) k = fmLookup m k := by
  induction m with
  | nil => rfl
  | cons p rest ih =>
    obtain ⟨k₀, v₀⟩ := p
    by_cases hk : k₀ = k'
    · subst hk
      simp only [fmReplace, if_pos rfl, fmLookup, if_neg h]
      exact ih
    · simp only [fmReplace, if_neg hk, fmLookup]
      by_cases hk2 : k₀ = k
      · simp [hk2]
      · simp only [if_neg hk2]
        exact ih

theorem fmLookup_append_single_ne (m : FieldMap) {k k' : String} (v : FieldValue)
    (h : k' ≠ k) : fmLookup (m ++ [(k', v)]) k = fmLookup m k := by
  induction m with
  | nil => simp [fmLookup, if_neg h]
  | cons p rest ih =>
    obtain ⟨k₀, v₀⟩ := p
    by_cases hk2 : k₀ = k
    · simp [fmLookup, hk2]
    · simp only [List.cons_append, fmLookup, if_neg hk2]
      exact ih

theorem fmLookup_fmInsert_self (m : FieldMap) (k : String) (v : FieldValue) :
    fmLookup (fmInsert m k v) k = some v := by
  unfold fmInsert
  by_cases hc : fmContains m k
  · simpa [hc] using fmLookup_fmReplace_self v hc
  · have hnone : fmLookup m k = none :=
      fmLookup_eq_none_of_not_contains (by simpa using hc)
    simp only [hc, if_false, Bool.false_eq_true]
    rw [fmLookup_append_of_none _ hnone]
    simp [fmLookup]

theorem fmLookup_fmInsert_ne (m : FieldMap) {k k' : String} (v : FieldValue)
    (h : k' ≠ k) : fmLookup (fmInsert m k' v) k = fmLookup m k := by
  unfold fmInsert
  by_cases hc : fmContains m k'
  · simpa [hc] using fmLookup_fmReplace_ne v m h
  · simpa [hc] using fmLookup_append_single_ne m v h

theorem fmContains_of_lookup_isSome :
    ∀ {m : FieldMap} {k : String}, (fmLookup m k).isSome → fmContains m k = true := by
  intro m k h
  induction m with
  | nil => simp [fmLookup] at h
  | cons p rest ih =>
    obtain ⟨k', v⟩ := p
    by_cases hk : k' = k
    · simp [fmContains, hk]
    · simp only [fmLookup, if_neg hk] at h
      simp only [fmContains, List.any_cons, Bool.or_eq_true, decide_eq_true_eq]
      exact Or.inr (ih h)

theorem fmContains_fmInsert_of {m : FieldMap} {k : String} (k' : String)
    (v : FieldValue) (h : fmContains m k = true) :
    fmContains (fmInsert m k' v) k = true := by
  by_cases hk : k' = k
  · subst hk
    exact fmContains_of_lookup_isSome (by rw [fmLookup_fmInsert_self]; rfl)
  · exact fmContains_of_lookup_isSome
      (by rw [fmLookup_fmInsert_ne m v hk]; exact fmLookup_isSome_of_contains h)

/-! ## Lemmas about the merge loops -/

/-- The backfill loops of stages 3 and 4 never change nor drop a binding
that is already present. -/
theorem mergeBackfill_preserves :
    ∀ (l : List (String × FieldValue)) (acc : FieldMap) {k : String},
      fmContains acc k = true →
      fmLookup (mergeBackfill acc l) k = fmLookup acc k ∧
        fmContains (mergeBackfill acc l) k = true := by
  intro l
  induction l with
  | nil => exact fun acc k h => ⟨rfl, h⟩
  | cons p rest ih =>
    intro acc k h
    obtain ⟨k₀, v₀⟩ := p
    simp only [mergeBackfill]
    by_cases hc : fmContains acc k₀
    · simpa [hc] using ih acc h
    · have hne : k₀ ≠ k := fun he => by rw [he, h] at hc; exact hc rfl
      have h2 : fmContains (fmInsert acc k₀ v₀) k = true :=
        fmContains_fmInsert_of k₀ v₀ h
      have h3 := ih (fmInsert acc k₀ v₀) h2
      simp only [hc, Bool.false_eq_true, if_false]
      exact ⟨h3.1.trans (fmLookup_fmInsert_ne acc v₀ hne), h3.2⟩

/-- The stage-2 merge loop never changes nor drops a present binding of a
key outside the entity allow-list. -/
theorem mergePattern_preserves_nonentity :
    ∀ (l : List (String × FieldValue)) (acc : FieldMap) {k : String},
      List.contains entityFields k = false →
      fmContains acc k = true →
      fmLookup (mergePattern acc l) k = fmLookup acc k ∧
        fmContains (mergePattern acc l) k = true := by
  intro l
  induction l with
  | nil => exact fun acc k _ h => ⟨rfl, h⟩
  | cons p rest ih =>
    intro acc k hent h
    obtain ⟨k₀, v₀⟩ := p
    simp only [mergePattern]
    by_cases hk : k₀ = k
    · subst hk
      rw [if_neg (by simp [h]),
        if_neg (by rintro ⟨hc1, -⟩; rw [hent] at hc1; exact Bool.false_ne_true hc1)]
      exact ih acc hent h
    · have step : ∀ acc' : FieldMap,
          (acc' = fmInsert acc k₀ v₀ ∨ acc' = acc) →
          fmLookup (mergePattern acc' rest) k = fmLookup acc k ∧
            fmContains (mergePattern acc' rest) k = true := by
        rintro acc' (h' | h')
        · subst h'
          have h2 := ih (fmInsert acc k₀ v₀) hent (fmContains_fmInsert_of k₀ v₀ h)
          exact ⟨h2.1.trans (fmLookup_fmInsert_ne acc v₀ hk), h2.2⟩
        · rw [h']
          exact ih acc hent h
      split
      · exact step _ (Or.inl rfl)
      · split
        · exact step _ (Or.inl rfl)
        · exact step _ (Or.inr rfl)

/-- The stage-2 merge loop does not touch keys that do not occur in the
pattern map. -/
theorem mergePattern_absent :
    ∀ (l : List (String × FieldValue)) (acc : FieldMap) {k : String},
      (∀ p ∈ l, p.1 ≠ k) →
      fmLookup (mergePattern acc l) k = fmLookup acc k := by
  intro l
  induction l with
  | nil => exact fun acc k _ => rfl
  | cons p rest ih =>
    intro acc k habs
    obtain ⟨k₀, v₀⟩ := p
    have hk : k₀ ≠ k := habs (k₀, v₀) (List.mem_cons_self _ _)
    have hrest : ∀ p ∈ rest, p.1 ≠ k := fun p hp => habs p (List.mem_cons_of_mem _ hp)
    simp only [mergePattern]
    have step : ∀ acc' : FieldMap,
        (acc' = fmInsert acc k₀ v₀ ∨ acc' = acc) →
        fmLookup (mergePattern acc' rest) k = fmLookup acc k := by
      rintro acc' (rfl | rfl)
      · exact (ih _ hrest).trans (fmLookup_fmInsert_ne acc v₀ hk)
      · exact ih _ hrest
    split
    · exact step _ (Or.inl rfl)
    · split
      · exact step _ (Or.inl rfl)
      · exact step _ (Or.inr rfl)

/-- The stage-2 merge loop installs a truthy entity-field value from the
pattern map, whether or not the key was already present. -/
theorem mergePattern_entity_override :
    ∀ (l : List (String × FieldValue)) (acc : FieldMap) {k : String} {v : FieldValue},
      (List.map Prod.fst l).Nodup →
      (k, v) ∈ l →
      List.contains entityFields k = true →
      FieldValue.truthy v = true →
      fmLookup (mergePattern acc l) k = some v := by
  intro l
  induction l with
  | nil => intro acc k v _ hmem; simp at hmem
  | cons p rest ih =>
    intro acc k v hnd hmem hent htr
    obtain ⟨k₀, v₀⟩ := p
    simp only [List.map_cons, List.nodup_cons] at hnd
    rcases List.mem_cons.mp hmem with heq | hmem'
    · injection heq with hk hv
      subst hk; subst hv
      have habs : ∀ p ∈ rest, p.1 ≠ k := by
        intro p hp he
        exact hnd.1 (he ▸ List.mem_map_of_mem Prod.fst hp)
      simp only [mergePattern]
      split
      · rw [mergePattern_absent rest _ habs, fmLookup_fmInsert_self]
      · rw [if_pos ⟨hent, htr⟩]
        rw [mergePattern_absent rest _ habs, fmLookup_fmInsert_self]
    · have hk : k₀ ≠ k := by
        intro he
        exact hnd.1 (he ▸ List.mem_map_of_mem Prod.fst hmem')
      simp only [mergePattern]
      split
      · exact ih _ hnd.2 hmem' hent htr
      · split
        · exact ih _ hnd.2 hmem' hent htr
        · exact ih _ hnd.2 hmem' hent htr

/-! ## Stage-level consequences -/

/-- Whatever is present after stage 2 survives stages 3 and 4 unchanged:
the backfill merges never overwrite. -/
theorem stage4_preserves_stage2 (o : PdfOracle) {k : String}
    (h : fmContains (stage2Fields o) k = true) :
    fmLookup (stage4Fields o) k = fmLookup (stage2Fields o) k := by
  have h3 : fmLookup (stage3Fields o) k = fmLookup (stage2Fields o) k ∧
      fmContains (stage3Fields o) k = true := by
    unfold stage3Fields
    split
    · exact mergeBackfill_preserves _ _ h
    · exact ⟨rfl, h⟩
  unfold stage4Fields
  split
  · exact ((mergeBackfill_preserves _ _ h3.2).1).trans h3.1
  · exact h3.1

/-- A non-entity binding present after stage 1 survives stage 2 unchanged. -/
theorem stage2_preserves_nonentity (o : PdfOracle) {k : String}
    (hent : List.contains entityFields k = false)
    (h : fmContains (stage1Fields o) k = true) :
    fmLookup (stage2Fields o) k = fmLookup (stage1Fields o) k ∧
      fmContains (stage2Fields o) k = true := by
  unfold stage2Fields
  split
  · exact mergePattern_preserves_nonentity _ _ hent h
  · exact ⟨rfl, h⟩

/-- A truthy entity-field binding of the pattern map is what stage 2 holds
for that key, regardless of what stage 1 held. -/
theorem stage2_entity_override (o : PdfOracle) {k : String} {v : FieldValue}
    (hnd : (List.map Prod.fst o.pattern_fields).Nodup)
    (hmem : (k, v) ∈ o.pattern_fields)
    (hent : List.contains entityFields k = true)
    (htr : FieldValue.truthy v = true)
    (htext : o.pdf_text.data.isEmpty = false) :
    fmLookup (stage2Fields o) k = some v := by
  unfold stage2Fields
  rw [if_pos]
  · exact mergePattern_entity_override _ _ hnd hmem hent htr
  · refine ⟨by simp [htext], ?_⟩
    have : o.pattern_fields ≠ [] := by
      intro he
      rw [he] at hmem
      simp at hmem
    simpa using this

/-! ## Lemmas about the validator and total income -/

theorem notMem_einWarnings (d : K1Data) :
    K1Warning.capitalNotReconcile ∉ einWarnings d := by
  unfold einWarnings
  cases d.ein
  · simp
  · split <;> simp

theorem notMem_taxYearWarnings (d : K1Data) :
    K1Warning.capitalNotReconcile ∉ taxYearWarnings d := by
  unfold taxYearWarnings
  cases d.tax_year
  · simp
  · split
    · split
      · split <;> simp
      · simp
    · simp

theorem notMem_percentWarning (n : String) (v : Option ℚ) :
    K1Warning.capitalNotReconcile ∉ percentWarning n v := by
  unfold percentWarning
  cases v
  · simp
  · split <;> simp

theorem notMem_percentWarnings (d : K1Data) :
    K1Warning.capitalNotReconcile ∉ percentWarnings d := by
  unfold percentWarnings
  simp only [List.mem_append]
  rintro ((h | h) | h) <;> exact notMem_percentWarning _ _ h

theorem notMem_negativeEndingWarnings (d : K1Data) :
    K1Warning.capitalNotReconcile ∉ negativeEndingWarnings d := by
  unfold negativeEndingWarnings
  cases d.capital_ending
  · simp
  · split <;> simp

/-- The reconciliation warning appears in the validator output exactly when
the capital account fails to reconcile. -/
theorem capitalNotReconcile_mem_iff (d : K1Data) :
    K1Warning.capitalNotReconcile ∈ validateK1Data d ↔
      validate_capital_account d = false := by
  unfold validateK1Data
  simp only [List.mem_append, notMem_einWarnings d, notMem_taxYearWarnings d,
    notMem_percentWarnings d, notMem_negativeEndingWarnings d, false_or, or_false]
  unfold capitalWarnings
  split
  · next h => simp [h]
  · next h => simp [Bool.eq_false_iff.mpr h]

/-- Filtering the missing entries out of a list of optional amounts and
summing is summing with missing entries as 0. -/
theorem sum_filterMap_eq_sum_getD (l : List (Option ℚ)) :
    (l.filterMap id).sum = (l.map (fun o => o.getD 0)).sum := by
  induction l with
  | nil => rfl
  | cons o rest ih =>
    cases o <;> simp [List.filterMap_cons, ih]

/-! ## The claims -/

/-- C1 (counterexample).  The claim states that for entity fields, whenever
two strategies both produce a non-empty value, the later strategy wins.  On
this run the pattern stage (stage 2) and the OCR stage (stage 4) both
produce a non-empty ein, the OCR stage is invoked, and the final field set
holds the earlier (pattern) value, not the later (OCR) one. -/
theorem C1_counterexample :
    ocrInvoked oracleEinClash = true ∧
    fmLookup oracleEinClash.pattern_fields "ein" = some (FieldValue.str "12-3456789") ∧
    fmLookup oracleEinClash.ocr_fields "ein" = some (FieldValue.str "98-7654321") ∧
    FieldValue.truthy (FieldValue.str "98-7654321") = true ∧
    fmLookup (stage4Fields oracleEinClash) "ein" = some (FieldValue.str "12-3456789") ∧
    FieldValue.str "12-3456789" ≠ FieldValue.str "98-7654321" := by
  decide

/-- C1 (amended).  The entity-field override happens only at the pattern
stage: (a) any binding present after stage 2 is exactly the final binding
(table and OCR stages never overwrite, entity fields included); (b) a
truthy pattern-stage value for an entity field is what stage 2 holds,
overriding stage 1; (c) a non-entity binding (every box value and
capital-account field) present after stage 1 is retained to the end
regardless of later strategy output. -/
theorem C1_merge_precedence :
    (∀ (o : PdfOracle) (k : String),
        fmContains (stage2Fields o) k = true →
        fmLookup (stage4Fields o) k = fmLookup (stage2Fields o) k) ∧
    (∀ (o : PdfOracle) (k : String) (v : FieldValue),
        (List.map Prod.fst o.pattern_fields).Nodup →
        (k, v) ∈ o.pattern_fields →
        List.contains entityFields k = true →
        FieldValue.truthy v = true →
        o.pdf_text.data.isEmpty = false →
        fmLookup (stage2Fields o) k = some v) ∧
    (∀ (o : PdfOracle) (k : String),
        List.contains entityFields k = false →
        fmContains (stage1Fields o) k = true →
        fmLookup (stage4Fields o) k = fmLookup (stage1Fields o) k) := by
  refine ⟨fun o k h => stage4_preserves_stage2 o h,
    fun o k v hnd hmem hent htr htext =>
      stage2_entity_override o hnd hmem hent htr htext,
    fun o k hent h => ?_⟩
  have h2 := stage2_preserves_nonentity o hent h
  exact (stage4_preserves_stage2 o h2.2).trans h2.1

/-- C1 (witness).  The three parts of the amended merge-precedence theorem
instantiated on concrete runs. -/
theorem C1_merge_precedence_witness :
    (fmLookup (stage4Fields oracleEinClash) "ein" =
      fmLookup (stage2Fields oracleEinClash) "ein") ∧
    (fmLookup (stage2Fields oracleEinClash) "ein" =
      some (FieldValue.str "12-3456789")) ∧
    (fmLookup (stage4Fields oracleRich) "box_1_ordinary_income" =
      fmLookup (stage1Fields oracleRich) "box_1_ordinary_income") :=
  ⟨C1_merge_precedence.1 oracleEinClash "ein" (by decide),
   C1_merge_precedence.2.1 oracleEinClash "ein" (FieldValue.str "12-3456789")
     (by decide) (by decide) (by decide) (by decide) (by decide),
   C1_merge_precedence.2.2 oracleRich "box_1_ordinary_income" (by decide) (by decide)⟩

/-- C2 (counterexample).  The claim states the normalizer maps the
trailing-dash form to the negated value; the source (and its docstring)
only strips the dash, yielding the positive value. -/
theorem C2_counterexample :
    clean_currency "1234.56-" = 1234.56 ∧ (1234.56 : ℚ) ≠ -1234.56 := by
  decide

/-- C2 (amended).  The currency normalizer maps the dollar-and-comma form
to 1234.56, the parenthesized form to -1234.56 and the leading-minus form
to -1234.56; a trailing dash is stripped without negating, so the
trailing-dash form also yields 1234.56. -/
theorem C2_normalizer :
    clean_currency "$1,234.56" = 1234.56 ∧
    clean_currency "(1,234.56)" = -1234.56 ∧
    clean_currency "-1234.56" = -1234.56 ∧
    clean_currency "1234.56-" = 1234.56 := by
  decide

/-- C3.  On the first scenario (beginning 500000, contributions 0, income
100000, distributions 50000, ending 559000) the reconciliation check fails
and the validator emits the capital-account warning; on the second
(beginning 100000, contributions 25000, income 50000, distributions 0,
ending 175000) the check passes exactly and no such warning is emitted. -/
theorem C3_capital_reconciliation :
    validate_capital_account k1CapitalMismatch = false ∧
    K1Warning.capitalNotReconcile ∈ validateK1Data k1CapitalMismatch ∧
    validate_capital_account k1CapitalExact = true ∧
    K1Warning.capitalNotReconcile ∉ validateK1Data k1CapitalExact := by
  decide

/-- C4.  If 15 or more fields are accumulated after the pattern stage, the
table stage gate is closed; if fewer than 5 fields are accumulated after
the table stage, the OCR gate is open. -/
theorem C4_cascade_gating :
    ∀ o : PdfOracle,
      (15 ≤ fmLen (stage2Fields o) → tableInvoked o = false) ∧
      (fmLen (stage3Fields o) < 5 → ocrInvoked o = true) := by
  intro o
  constructor
  · intro h
    simp only [tableInvoked, decide_eq_false_iff_not, not_lt]
    exact h
  · intro h
    simp only [ocrInvoked, decide_eq_true_eq]
    exact h

/-- C4 (witness).  A run with 16 fields after stage 2 does not invoke the
table stage; a run with no fields after stage 3 invokes OCR. -/
theorem C4_cascade_gating_witness :
    tableInvoked oracleRich = false ∧ ocrInvoked oracleEmpty = true :=
  ⟨(C4_cascade_gating oracleRich).1 (by decide),
   (C4_cascade_gating oracleEmpty).2 (by decide)⟩

/-- C5 (counterexample).  The claim states that a failed full parse first
falls back to the longest embedded numeric substring and that a not-numeric
token maps to a result treated as absent rather than zero.  The source has
no embedded-substring fallback (a token with the embedded number 123 still
yields 0.0) and its not-numeric result is the float 0.0 itself,
indistinguishable from a parsed zero. -/
theorem C5_counterexample :
    clean_currency "abc 123 def" = 0 ∧ (0 : ℚ) ≠ 123 ∧
    clean_currency "abc" = clean_currency "0" := by
  decide

/-- C5 (amended).  Whenever the cleaned token fails to parse as a float,
clean_currency returns the value 0.0 (also on empty input); there is no
embedded-substring fallback and no distinct not-numeric marker. -/
theorem C5_not_numeric_yields_zero :
    ∀ s : String,
      pyFloat (applyNegationRules (stripCurrency s.data)) = none →
      clean_currency s = 0 := by
  intro s h
  unfold clean_currency
  split
  · rfl
  · rw [h]

/-- C5 (witness).  The amended statement instantiated on a not-numeric
token. -/
theorem C5_not_numeric_yields_zero_witness : clean_currency "abc" = 0 :=
  C5_not_numeric_yields_zero "abc" (by decide)

/-- C6.  For every record, whatever fields are present and whatever method
was used, the confidence score lies in [0, 1]. -/
theorem C6_confidence_bounds :
    ∀ d : K1Data, 0 ≤ calculate_confidence d ∧ calculate_confidence d ≤ 1 := by
  intro d
  simp only [calculate_confidence]
  constructor
  · apply le_min
    · have h1 : (0 : ℚ) ≤ get_completeness_score d := by
        unfold get_completeness_score
        positivity
      have h2 : (0 : ℚ) ≤ (criticalPresent d : ℚ) / 3 := by positivity
      have h3 : (0 : ℚ) ≤ methodScore d.extraction_method := by
        cases d.extraction_method <;> norm_num [methodScore]
      have h4 : (0 : ℚ) ≤ (if validate_capital_account d then (0.1 : ℚ) else 0.05) := by
        split <;> norm_num
      exact add_nonneg (add_nonneg (add_nonneg
        (mul_nonneg h1 (by norm_num)) (mul_nonneg h2 (by norm_num)))
        (mul_nonneg h3 (by norm_num))) h4
    · norm_num
  · exact le_trans (min_le_right _ _) (by norm_num)

/-- C7 (counterexample).  The claim states that any classifier input with
no form-title and no keyword signal yields 1065.  The empty text matches no
signal, yet the text-path classifier returns unknown, not 1065. -/
theorem C7_counterexample :
    inLower "form 1065" "" = false ∧ inLower "form 1120s" "" = false ∧
    inLower "form 1041" "" = false ∧ inLower "partnership" "" = false ∧
    inLower "s corporation" "" = false ∧ inLower "s-corporation" "" = false ∧
    inLower "estate" "" = false ∧ inLower "trust" "" = false ∧
    detect_form_type "" = FormType.unknown ∧
    FormType.unknown ≠ FormType.form_1065 := by
  decide

/-- C7 (amended).  The 1065 default belongs to the field-map path only:
with no keyword signal in the extracted entity name (or no entity name at
all) the field-map classifier returns 1065, while the text-path classifier
returns unknown when no title and no content keyword matches. -/
theorem C7_form_type_default :
    (∀ text : String,
        inLower "form 1065" text = false →
        inLower "schedule k-1 (form 1065)" text = false →
        inLower "form 1120s" text = false →
        inLower "schedule k-1 (form 1120s)" text = false →
        inLower "form 1041" text = false →
        inLower "schedule k-1 (form 1041)" text = false →
        inLower "partnership" text = false →
        inLower "s corporation" text = false →
        inLower "s-corporation" text = false →
        inLower "estate" text = false →
        inLower "trust" text = false →
        detect_form_type text = FormType.unknown) ∧
    (∀ m : FieldMap,
        fmLookup m "entity_name" = none →
        detect_form_type_from_fields m = FormType.form_1065) ∧
    (∀ (m : FieldMap) (name : String),
        fmLookup m "entity_name" = some (FieldValue.str name) →
        inLower "partnership" name = false →
        inLower "lp" name = false →
        inLower "corporation" name = false →
        inLower "corp" name = false →
        inLower "trust" name = false →
        inLower "estate" name = false →
        detect_form_type_from_fields m = FormType.form_1065) := by
  refine ⟨?_, ?_, ?_⟩
  · intro text h1 h2 h3 h4 h5 h6 h7 h8 h9 h10 h11
    simp [detect_form_type, h1, h2, h3, h4, h5, h6, h7, h8, h9, h10, h11]
  · intro m hm
    unfold detect_form_type_from_fields
    rw [hm]
  · intro m name hm h1 h2 h3 h4 h5 h6
    unfold detect_form_type_from_fields
    rw [hm]
    simp [h1, h2, h3, h4, h5, h6]

/-- C7 (witness).  The amended statement instantiated: a signal-free text
classifies as unknown, and the field-map path defaults to 1065 both with no
entity name and with a keyword-free entity name. -/
theorem C7_form_type_default_witness :
    detect_form_type "" = FormType.unknown ∧
    detect_form_type_from_fields [] = FormType.form_1065 ∧
    detect_form_type_from_fields
        [("entity_name", FieldValue.str "Acme Holdings")] = FormType.form_1065 :=
  ⟨C7_form_type_default.1 "" (by decide) (by decide) (by decide) (by decide)
      (by decide) (by decide) (by decide) (by decide) (by decide) (by decide)
      (by decide),
   C7_form_type_default.2.1 [] (by decide),
   C7_form_type_default.2.2 [("entity_name", FieldValue.str "Acme Holdings")]
      "Acme Holdings" (by decide) (by decide) (by decide) (by decide)
      (by decide) (by decide) (by decide)⟩

/-- C8 (counterexample).  The claim states two runs on the same PDF yield
records equal in every field including metadata.  With identical adapter
outputs but clock readings 0 and 1, the two results differ (in the
extraction timestamp). -/
theorem C8_counterexample :
    extract_from_pdf oracleEmpty 0 0 ≠ extract_from_pdf oracleEmpty 1 0 := by
  decide

/-- C8 (amended).  The pipeline is deterministic in everything except the
clock: two runs with the same adapter outputs agree on every extracted
field, the form type, the confidence score and the warnings; only the
extraction timestamp and the processing time, both read from the clock,
can differ. -/
theorem C8_deterministic_modulo_clock :
    ∀ (o : PdfOracle) (t₁ e₁ t₂ e₂ : ℚ),
      stripClock (extract_from_pdf o t₁ e₁) = stripClock (extract_from_pdf o t₂ e₂) := by
  intro o t₁ e₁ t₂ e₂
  rfl

/-- C9.  Capital-account validation is vacuous on missing data: with any of
beginning, ending or distributions absent it reports True and no
reconciliation warning is emitted, even if the present fields are
inconsistent; an absent contributions does not disable validation and acts
as 0 in the formula. -/
theorem C9_vacuous_validation :
    (∀ d : K1Data,
        (d.capital_beginning = none ∨ d.capital_ending = none ∨
          d.capital_distributions = none) →
        validate_capital_account d = true ∧
        K1Warning.capitalNotReconcile ∉ validateK1Data d) ∧
    (∀ d : K1Data,
        validate_capital_account { d with capital_contributions := none } =
          validate_capital_account { d with capital_contributions := some 0 }) := by
  constructor
  · intro d h
    have hv : validate_capital_account d = true := by
      unfold validate_capital_account
      rcases h with h | h | h <;> rw [if_neg (by simp [h])]
    refine ⟨hv, ?_⟩
    rw [capitalNotReconcile_mem_iff]
    simp [hv]
  · intro d
    rfl

/-- C9 (witness).  A record with no beginning balance but an ending balance
and distributions that cannot reconcile still validates with no warning. -/
theorem C9_vacuous_validation_witness :
    validate_capital_account
        { capital_ending := some 100, capital_distributions := some 50 } = true ∧
    K1Warning.capitalNotReconcile ∉
      validateK1Data { capital_ending := some 100, capital_distributions := some 50 } :=
  C9_vacuous_validation.1 _ (Or.inl rfl)

/-- C10.  Total income is exactly the sum of boxes 1, 2, 3, 4, 5, 6a, 7,
8, 9a and 11 with absent boxes contributing 0, and it is invariant under
boxes 6b, 9b, 9c, 10 and 12 — also inside the capital-account
reconciliation that consumes it. -/
theorem C10_total_income :
    ∀ (d : K1Data) (x : Option ℚ),
      get_total_income d =
        d.box_1_ordinary_income.getD 0 + d.box_2_rental_real_estate.getD 0 +
          d.box_3_other_rental.getD 0 + d.box_4_guaranteed_payments.getD 0 +
          d.box_5_interest_income.getD 0 + d.box_6a_ordinary_dividends.getD 0 +
          d.box_7_royalties.getD 0 + d.box_8_net_short_term_gain.getD 0 +
          d.box_9a_net_long_term_gain.getD 0 + d.box_11_other_income.getD 0 ∧
      get_total_income { d with box_6b_qualified_dividends := x } = get_total_income d ∧
      get_total_income { d with box_9b_collectibles_gain := x } = get_total_income d ∧
      get_total_income { d with box_9c_unrecaptured_1250 := x } = get_total_income d ∧
      get_total_income { d with box_10_net_1231_gain := x } = get_total_income d ∧
      get_total_income { d with box_12_section_179 := x } = get_total_income d ∧
      validate_capital_account { d with box_6b_qualified_dividends := x } =
        validate_capital_account d ∧
      validate_capital_account { d with box_10_net_1231_gain := x } =
        validate_capital_account d := by
  intro d x
  refine ⟨?_, rfl, rfl, rfl, rfl, rfl, rfl, rfl⟩
  unfold get_total_income
  rw [sum_filterMap_eq_sum_getD]
  simp only [List.map_cons, List.map_nil, List.sum_cons, List.sum_nil]
  ring

end

end K1
